import Mathlib

/-!
Shallow embedding of `gm_tungstenite` (`src/functions.rs`, `src/lib.rs`):
a Garry's Mod module bridging Lua to a background WebSocket worker thread
through a pair of mpsc channels.  Pure data types are translated directly;
the worker poll loop, the host-side handle operations (`send`, `close`,
`close_now`, `open`) and the dispatch tick (`run_callbacks`) are modelled
as explicit state-passing functions over those types.
-/

namespace Tungstenite

/-- Event tag sent from the worker thread to the Lua side
(`LuaMessageType` in `functions.rs`). -/
inductive LuaMessageType
  | message
  | error
  | disconnect
  | connect
deriving DecidableEq

/-- Command tag sent from the Lua side to the worker thread
(`RustMessageType` in `functions.rs`). -/
inductive RustMessageType
  | message
  | close
deriving DecidableEq

/-- Worker-to-Lua event (`LuaChannel`): a tag plus an optional string payload. -/
structure LuaChannel where
  message_type : LuaMessageType
  data : Option String
deriving DecidableEq

/-- Lua-to-worker command (`RustChannel`): a tag plus an optional string payload. -/
structure RustChannel where
  message_type : RustMessageType
  data : Option String
deriving DecidableEq

/-! UTF-8 decoding.  The worker decodes inbound text frames with
`std::str::from_utf8`, falling back to `String::from_utf8_lossy` on invalid
bytes.  Both std functions are modelled byte-for-byte: strict validation
per RFC 3629 (no overlong forms, no surrogates, max U+10FFFF), and lossy
replacement by U+FFFD per maximal invalid subpart. -/

/-- Whether a byte is a UTF-8 continuation byte (`0x80`-`0xBF`). -/
def contB (b : Nat) : Bool := decide (0x80 ≤ b) && decide (b ≤ 0xBF)

/-- Parse one UTF-8 scalar value from the front of a byte list, with the
validation rules of Rust `std::str::from_utf8`.  Returns `(some c, n)`
with `n` bytes consumed on success, or `(none, n)` where `n ≥ 1` is the
length of the maximal subpart of an invalid sequence (the amount skipped
by `String::from_utf8_lossy` per replacement character). -/
def utf8Parse1 : List Nat → Option Char × Nat
  | [] => (none, 0)
  | b0 :: rest =>
    if b0 ≤ 0x7F then
      (some (Char.ofNat b0), 1)
    else if 0xC2 ≤ b0 ∧ b0 ≤ 0xDF then
      match rest with
      | b1 :: _ =>
        if contB b1 then
          (some (Char.ofNat ((b0 - 0xC0) * 0x40 + (b1 - 0x80))), 2)
        else (none, 1)
      | [] => (none, 1)
    else if 0xE0 ≤ b0 ∧ b0 ≤ 0xEF then
      let b1ok : Nat → Bool := fun b1 =>
        if b0 = 0xE0 then decide (0xA0 ≤ b1) && decide (b1 ≤ 0xBF)
        else if b0 = 0xED then decide (0x80 ≤ b1) && decide (b1 ≤ 0x9F)
        else contB b1
      match rest with
      | b1 :: rest1 =>
        if b1ok b1 then
          match rest1 with
          | b2 :: _ =>
            if contB b2 then
              (some (Char.ofNat ((b0 - 0xE0) * 0x1000 + (b1 - 0x80) * 0x40 + (b2 - 0x80))), 3)
            else (none, 2)
          | [] => (none, 2)
        else (none, 1)
      | [] => (none, 1)
    else if 0xF0 ≤ b0 ∧ b0 ≤ 0xF4 then
      let b1ok : Nat → Bool := fun b1 =>
        if b0 = 0xF0 then decide (0x90 ≤ b1) && decide (b1 ≤ 0xBF)
        else if b0 = 0xF4 then decide (0x80 ≤ b1) && decide (b1 ≤ 0x8F)
        else contB b1
      match rest with
      | b1 :: rest1 =>
        if b1ok b1 then
          match rest1 with
          | b2 :: rest2 =>
            if contB b2 then
              match rest2 with
              | b3 :: _ =>
                if contB b3 then
                  (some (Char.ofNat ((b0 - 0xF0) * 0x40000 + (b1 - 0x80) * 0x1000
                      + (b2 - 0x80) * 0x40 + (b3 - 0x80))), 4)
                else (none, 3)
              | [] => (none, 3)
            else (none, 2)
          | [] => (none, 2)
        else (none, 1)
      | [] => (none, 1)
    else (none, 1)

/-- Strict UTF-8 decoding with fuel (fuel `≥` list length suffices since
every step consumes at least one byte). -/
def utf8DecodeF : Nat → List Nat → Option (List Char)
  | _, [] => some []
  | 0, _ => none
  | fuel + 1, l =>
    match utf8Parse1 l with
    | (some c, n) => (utf8DecodeF fuel (l.drop n)).map (fun cs => c :: cs)
    | (none, _) => none

/-- Rust `std::str::from_utf8`: strict UTF-8 decoding of a byte list. -/
def from_utf8 (l : List Nat) : Option String :=
  (utf8DecodeF l.length l).map List.asString

/-- The replacement character U+FFFD. -/
def replChar : Char := Char.ofNat 0xFFFD

/-- Lossy UTF-8 decoding with fuel: each maximal invalid subpart becomes
one U+FFFD. -/
def utf8LossyF : Nat → List Nat → List Char
  | _, [] => []
  | 0, _ => []
  | fuel + 1, l =>
    match utf8Parse1 l with
    | (some c, n) => c :: utf8LossyF fuel (l.drop n)
    | (none, n) => replChar :: utf8LossyF fuel (l.drop n)

/-- Rust `String::from_utf8_lossy`: lossy UTF-8 decoding of a byte list. -/
def from_utf8_lossy (l : List Nat) : String :=
  (utf8LossyF l.length l).asString

/-- The decode performed by the worker on a text frame
(`functions.rs` lines 123-126): strict UTF-8, falling back to lossy
replacement decoding on invalid bytes. -/
def decodeTextBytes (bs : List Nat) : String :=
  match from_utf8 bs with
  | some s => s
  | none => from_utf8_lossy bs

/-! Transport worker (`spawn` in `functions.rs`).  Each loop iteration
drains at most one command non-blockingly, then performs one non-blocking
socket read.  Socket writes are best-effort (`let _ = ...`), so they are
recorded as actions without a failure path. -/

/-- An action the worker performs against the socket. -/
inductive SocketAction
  | sendText (t : String)
  | closeHandshake
  | sendPong (p : List Nat)
deriving DecidableEq

/-- A frame returned by a successful `socket.read()`. -/
inductive Frame
  | text (bytes : List Nat)
  | ping (payload : List Nat)
  | close (frame : Option String)
  | binary (bytes : List Nat)
  | pong (payload : List Nat)
deriving DecidableEq

/-- Outcome of one non-blocking `socket.read()`. -/
inductive ReadResult
  | frame (f : Frame)
  | wouldBlock
  | fail (msg : String)
deriving DecidableEq

/-- Outcome of the initial `tungstenite::connect(&url)` call. -/
inductive ConnectResult
  | ok
  | err (msg : String)
deriving DecidableEq

/-- Command-drain phase of one loop iteration (`rx_from_lua.try_recv()`,
lines 104-119): at most one command is taken from the queue.  A `Message`
command with a payload becomes a best-effort text write; a `Close` command
becomes a best-effort close handshake; an empty queue is a no-op; a
disconnected producer (queue empty and sender dropped) breaks the loop
silently.  Returns the remaining queue, the socket actions, and whether
the loop breaks. -/
def commandPhase (q : List RustChannel) (producerAlive : Bool) :
    List RustChannel × List SocketAction × Bool :=
  match q with
  | c :: rest =>
    match c.message_type with
    | RustMessageType.message =>
      (rest, (match c.data with | some t => [SocketAction.sendText t] | none => []), false)
    | RustMessageType.close => (rest, [SocketAction.closeHandshake], false)
  | [] => ([], [], !producerAlive)

/-- Result of the read phase of one loop iteration. -/
structure PhaseOut where
  events : List LuaChannel
  acts : List SocketAction
  brk : Bool
deriving DecidableEq

/-- Read phase of one loop iteration (`socket.read()`, lines 121-146):
a text frame is decoded (strict UTF-8, lossy fallback) and emitted as a
`Message` event; a ping is answered with a pong and no event; a close frame
emits a `Disconnected` event with the frame reason or `"unknown"` (and does
not break, mirroring the absence of `break` in that arm); `WouldBlock` is a
no-op; any other read error emits an `Error` event and breaks; binary and
pong frames fall into the catch-all no-op arm. -/
def readPhase (r : ReadResult) : PhaseOut :=
  match r with
  | ReadResult.frame (Frame.text bs) =>
    { events := [⟨LuaMessageType.message, some (decodeTextBytes bs)⟩], acts := [], brk := false }
  | ReadResult.frame (Frame.ping p) =>
    { events := [], acts := [SocketAction.sendPong p], brk := false }
  | ReadResult.frame (Frame.close f) =>
    match f with
    | some reason =>
      { events := [⟨LuaMessageType.disconnect, some reason⟩], acts := [], brk := false }
    | none =>
      { events := [⟨LuaMessageType.disconnect, some "unknown"⟩], acts := [], brk := false }
  | ReadResult.wouldBlock => { events := [], acts := [], brk := false }
  | ReadResult.fail msg =>
    { events := [⟨LuaMessageType.error, some msg⟩], acts := [], brk := true }
  | ReadResult.frame (Frame.binary _) => { events := [], acts := [], brk := false }
  | ReadResult.frame (Frame.pong _) => { events := [], acts := [], brk := false }

/-- Result of one full worker loop iteration. -/
structure IterOut where
  cmdQueue : List RustChannel
  events : List LuaChannel
  acts : List SocketAction
  brk : Bool
deriving DecidableEq

/-- One iteration of the worker poll loop (lines 103-149): command phase
first; if it breaks (producer gone) the read phase never runs; otherwise
the read phase runs and decides whether the loop breaks. -/
def workerIter (q : List RustChannel) (producerAlive : Bool) (r : ReadResult) : IterOut :=
  match commandPhase q producerAlive with
  | (q1, cacts, cbrk) =>
    if cbrk then { cmdQueue := q1, events := [], acts := cacts, brk := true }
    else
      let ro := readPhase r
      { cmdQueue := q1, events := ro.events, acts := cacts ++ ro.acts, brk := ro.brk }

/-- Environment input for one worker loop iteration: commands newly arrived
on the queue before this iteration, whether the Lua-side sender is still
alive, and what this iteration's read returns. -/
structure IterInput where
  newCmds : List RustChannel
  producerAlive : Bool
  read : ReadResult

/-- The worker poll loop, run over a finite trace of per-iteration inputs,
threading the command queue; stops early when an iteration breaks.
Returns all events emitted to Lua and all socket actions performed. -/
def workerLoop (q : List RustChannel) : List IterInput → List LuaChannel × List SocketAction
  | [] => ([], [])
  | inp :: rest =>
    let o := workerIter (q ++ inp.newCmds) inp.producerAlive inp.read
    if o.brk then (o.events, o.acts)
    else
      let (evs, acts) := workerLoop o.cmdQueue rest
      (o.events ++ evs, o.acts ++ acts)

/-- The whole worker thread body (`spawn`, lines 72-151): on connect
success emit `Connect` and enter the poll loop; on connect failure emit a
single `Error(message)` and return immediately, so the loop never runs and
no further event is produced whatever the environment would have offered. -/
def workerRun (c : ConnectResult) (q0 : List RustChannel) (iters : List IterInput) :
    List LuaChannel × List SocketAction :=
  match c with
  | ConnectResult.err m => ([⟨LuaMessageType.error, some m⟩], [])
  | ConnectResult.ok =>
    match workerLoop q0 iters with
    | (evs, acts) => (⟨LuaMessageType.connect, none⟩ :: evs, acts)

/-! Host-side connection handle (`struct Socket` in `functions.rs`).
The mpsc sender `tx` is modelled by the pending command queue plus a flag
saying whether its receiver (held by the worker generation) is still
alive; the `Arc<Mutex<Receiver>>` field `rx` is modelled by the pending
event queue, a flag for whether its sender (the worker) is still alive,
and a flag for whether the mutex lock can be acquired.  Pointer identity
of the Lua userdata is modelled by the numeric `id`; the Registry
(`SOCKETS`) is the list of ids of registered handles. -/
structure Socket where
  txQueue : List RustChannel
  txConsumerAlive : Bool
  rxQueue : List LuaChannel
  rxProducerAlive : Bool
  rxLockable : Bool
  id : Nat
  closed : Bool
  url : String
deriving DecidableEq

/-- Error string produced by `send` when the command channel has no
receiver (`format!("send failed: {e}")` with mpsc's `SendError` display). -/
def sendFailMsg : String := "send failed: sending on a closed channel"

/-- Error string produced by `close` when the command channel has no
receiver (`format!("failed to close connection ({e})")`). -/
def closeFailMsg : String := "failed to close connection (sending on a closed channel)"

/-- The `send` method (lines 154-162): enqueue a `Message` command on `tx`;
an mpsc send fails, leaving the queue untouched, exactly when the receiver
has been dropped.  The `closed` flag is never consulted. -/
def send (s : Socket) (data : String) : Socket × Except String Unit :=
  if s.txConsumerAlive then
    ({ s with txQueue := s.txQueue ++ [⟨RustMessageType.message, some data⟩] }, Except.ok ())
  else
    (s, Except.error sendFailMsg)

/-- A sequence of `send` calls, threading the handle state and collecting
each call's result. -/
def sendMany (s : Socket) : List String → Socket × List (Except String Unit)
  | [] => (s, [])
  | t :: ts =>
    match send s t with
    | (s1, r) =>
      match sendMany s1 ts with
      | (s2, rs) => (s2, r :: rs)

/-- The `close` method (lines 163-172): set `closed := true` first, then
enqueue a `Close` command; the enqueue fails (after the flag was already
set — no rollback) exactly when the receiver has been dropped. -/
def close (s : Socket) : Socket × Except String Unit :=
  let s1 : Socket := { s with closed := true }
  if s1.txConsumerAlive then
    ({ s1 with txQueue := s1.txQueue ++ [⟨RustMessageType.close, none⟩] }, Except.ok ())
  else
    (s1, Except.error closeFailMsg)

/-- A Lua callback invocation performed by the module, with its payload. -/
inductive CbCall
  | on_connect (data : Option String)
  | on_message (data : Option String)
  | on_error (data : Option String)
  | on_disconnect (data : Option String)
deriving DecidableEq

/-- Result of `close_now`: the updated handle, the updated registry, and
the callback invocations it performed.  The Rust function's only fallible
step is the logged callback call; there is no channel error path. -/
structure CloseNowResult where
  handle : Socket
  registry : List Nat
  calls : List CbCall
deriving DecidableEq

/-- The `close_now` method (lines 173-188): set `closed := true`; replace
`tx` by the sender of a fresh channel whose receiver is immediately
dropped (consumer dead, queue empty); replace `rx` by the receiver of a
fresh channel whose sender is immediately dropped (producer dead, queue
empty, fresh unlocked mutex); remove this handle from the registry
(`retain` on pointer inequality); then, if the Lua object has an
`on_disconnect` callback, invoke it with the fixed reason
`"closed by user"`. -/
def close_now (s : Socket) (reg : List Nat) (onDisconnectRegistered : Bool) : CloseNowResult :=
  let s1 : Socket :=
    { s with closed := true,
             txQueue := [], txConsumerAlive := false,
             rxQueue := [], rxProducerAlive := false, rxLockable := true }
  { handle := s1,
    registry := reg.filter (fun i => i ≠ s.id),
    calls := if onDisconnectRegistered then [CbCall.on_disconnect (some "closed by user")] else [] }

/-- Result of `open`: the updated handle and registry, whether a new
worker thread was spawned, and the returned boolean. -/
structure OpenResult where
  handle : Socket
  registry : List Nat
  spawned : Bool
  ret : Bool
deriving DecidableEq

/-- The `open` method (lines 189-224): if the handle is not closed, return
`true` immediately, touching nothing and spawning nothing.  Otherwise
build a fresh channel pair bound to a newly spawned worker (live consumer
and producer, empty queues), install it, clear `closed`, and push the
handle onto the registry only after checking it is not already a member. -/
def «open» (s : Socket) (reg : List Nat) : OpenResult :=
  if !s.closed then
    { handle := s, registry := reg, spawned := false, ret := true }
  else
    let s1 : Socket :=
      { s with txQueue := [], txConsumerAlive := true,
               rxQueue := [], rxProducerAlive := true, rxLockable := true,
               closed := false }
    { handle := s1,
      registry := if s.id ∈ reg then reg else reg ++ [s.id],
      spawned := true,
      ret := true }

/-- The module-level `connect` factory (lines 294-317): fresh channel pair
bound to a newly spawned worker, a new userdata with `closed := false`,
pushed unconditionally onto the registry. -/
def connect (id : Nat) (url : String) (reg : List Nat) : Socket × List Nat :=
  ({ txQueue := [], txConsumerAlive := true,
     rxQueue := [], rxProducerAlive := true, rxLockable := true,
     id := id, closed := false, url := url }, reg ++ [id])

/-! Dispatch loop (`run_callbacks`, lines 227-283), run once per host
scheduler tick over the registry via `Vec::retain`. -/

/-- Which callbacks the Lua object carries, and whether invoking each
would raise a Lua error (raised errors are only logged via
`error_no_halt_with_stack`). -/
structure Callbacks where
  onConnectRegistered : Bool
  onMessageRegistered : Bool
  onErrorRegistered : Bool
  onDisconnectRegistered : Bool
  onConnectRaises : Bool
  onMessageRaises : Bool
  onErrorRaises : Bool
  onDisconnectRaises : Bool
deriving DecidableEq

/-- A registry entry as seen by the dispatch loop: the handle state plus
the Lua object's callback surface. -/
structure Entry where
  sock : Socket
  cbs : Callbacks
deriving DecidableEq

/-- Outcome of `Receiver::try_recv` on the event queue. -/
inductive TryRecvResult
  | ok (msg : LuaChannel)
  | empty
  | disconnected
deriving DecidableEq

/-- The non-blocking `try_recv` on the event queue: a queued event is
taken (mpsc keeps buffered messages readable even after the sender
dropped); an empty queue yields `Empty` while the producer lives and
`Disconnected` once it is gone. -/
def tryRecvEvent (s : Socket) : TryRecvResult × Socket :=
  match s.rxQueue with
  | e :: rest => (TryRecvResult.ok e, { s with rxQueue := rest })
  | [] =>
    if s.rxProducerAlive then (TryRecvResult.empty, s) else (TryRecvResult.disconnected, s)

/-- Result of processing one registry entry in one tick: whether `retain`
keeps it, the updated entry, the callback invocations made, and how many
errors were reported through `error_no_halt_with_stack`. -/
structure EntryResult where
  keep : Bool
  entry : Entry
  calls : List CbCall
  logs : Nat
deriving DecidableEq

/-- Processing of one registry entry by one `run_callbacks` tick
(the closure passed to `retain`, lines 229-279): a failed lock retires the
entry; otherwise exactly one `try_recv` is performed.  `Connect`,
`Message` and `Error` events look up the callback and invoke it, logging
one error when the lookup or the call fails, and keep the entry.  A
`Disconnect` event sets `closed := true` and invokes the callback only
when `on_disconnect` is registered (the flag assignment sits inside the
`if let Ok(func)` block), and retires the entry in every case.  An empty
queue keeps the entry untouched; a dead producer retires it silently. -/
def runEntry (e : Entry) : EntryResult :=
  if !e.sock.rxLockable then
    { keep := false, entry := e, calls := [], logs := 0 }
  else
    match tryRecvEvent e.sock with
    | (TryRecvResult.ok msg, s1) =>
      match msg.message_type with
      | LuaMessageType.connect =>
        { keep := true, entry := { e with sock := s1 },
          calls := if e.cbs.onConnectRegistered then [CbCall.on_connect msg.data] else [],
          logs := if e.cbs.onConnectRegistered && !e.cbs.onConnectRaises then 0 else 1 }
      | LuaMessageType.message =>
        { keep := true, entry := { e with sock := s1 },
          calls := if e.cbs.onMessageRegistered then [CbCall.on_message msg.data] else [],
          logs := if e.cbs.onMessageRegistered && !e.cbs.onMessageRaises then 0 else 1 }
      | LuaMessageType.error =>
        { keep := true, entry := { e with sock := s1 },
          calls := if e.cbs.onErrorRegistered then [CbCall.on_error msg.data] else [],
          logs := if e.cbs.onErrorRegistered && !e.cbs.onErrorRaises then 0 else 1 }
      | LuaMessageType.disconnect =>
        if e.cbs.onDisconnectRegistered then
          { keep := false, entry := { e with sock := { s1 with closed := true } },
            calls := [CbCall.on_disconnect msg.data],
            logs := if e.cbs.onDisconnectRaises then 1 else 0 }
        else
          { keep := false, entry := { e with sock := s1 }, calls := [], logs := 0 }
    | (TryRecvResult.empty, s1) =>
      { keep := true, entry := { e with sock := s1 }, calls := [], logs := 0 }
    | (TryRecvResult.disconnected, _) =>
      { keep := false, entry := e, calls := [], logs := 0 }

/-- One `run_callbacks` tick over the whole registry: `retain` visits each
entry once in order, keeping those whose closure returned true.  Returns
the retained (updated) entries, all callback invocations, and the total
number of logged callback errors. -/
def run_callbacks (entries : List Entry) : List Entry × List CbCall × Nat :=
  match entries with
  | [] => ([], [], 0)
  | e :: rest =>
    let r := runEntry e
    match run_callbacks rest with
    | (kept, calls, logs) =>
      ((if r.keep then [r.entry] else []) ++ kept, r.calls ++ calls, r.logs + logs)

/-! Concrete fixtures used by witness theorems. -/

/-- A freshly connected handle: live channel ends, empty queues, not closed. -/
def sampleSock : Socket :=
  { txQueue := [], txConsumerAlive := true,
    rxQueue := [], rxProducerAlive := true, rxLockable := true,
    id := 1, closed := false, url := "ws://example" }

/-- A Lua object with no callbacks registered. -/
def sampleCbs : Callbacks :=
  { onConnectRegistered := false, onMessageRegistered := false,
    onErrorRegistered := false, onDisconnectRegistered := false,
    onConnectRaises := false, onMessageRaises := false,
    onErrorRaises := false, onDisconnectRaises := false }

/-- A registry entry for `sampleSock` with no callbacks. -/
def sampleEntry : Entry := { sock := sampleSock, cbs := sampleCbs }

/-- A registry entry whose event queue holds one `Disconnected("bye")`
event and whose Lua object has no `on_disconnect` callback. -/
def disconnectedEntry : Entry :=
  { sock := { sampleSock with rxQueue := [⟨LuaMessageType.disconnect, some "bye"⟩] },
    cbs := sampleCbs }

/-! Helper lemmas. -/

/-- While the Lua-side command sender is alive, the command phase never
breaks the worker loop. -/
theorem commandPhase_alive_no_brk (q : List RustChannel) :
    (commandPhase q true).2.2 = false := by
  cases q with
  | nil => rfl
  | cons c rest =>
    rcases c with ⟨mt, d⟩
    cases mt <;> rfl

/-- The break flag of one worker iteration is the disjunction of the
command-phase break and the read-phase break. -/
theorem workerIter_brk (q : List RustChannel) (alive : Bool) (r : ReadResult) :
    (workerIter q alive r).brk = ((commandPhase q alive).2.2 || (readPhase r).brk) := by
  rcases hcp : commandPhase q alive with ⟨q1, cacts, cbrk⟩
  cases cbrk <;> simp [workerIter, hcp]

/-- Once the command channel's receiver is gone, every `send` fails and
leaves the handle untouched, so any sequence of sends fails throughout. -/
theorem sendMany_dead (s : Socket) (hdead : s.txConsumerAlive = false) :
    ∀ ts : List String,
      sendMany s ts = (s, ts.map fun _ => Except.error sendFailMsg)
  | [] => rfl
  | t :: ts => by
    simp [sendMany, send, hdead, sendMany_dead s hdead ts]

/-- C1 (evaluation at the failing input): when the dispatch loop drains a
`Disconnected("bye")` event for an entry whose Lua object has no
`on_disconnect` callback registered, the entry is retired from the
registry (`keep = false`) and no callback is invoked, but the lifecycle
flag `closed` is left at `false` — the assignment `ud_mut.closed = true`
sits inside the `if let Ok(func)` branch in `run_callbacks`, so the claim
that the flag is set unconditionally fails on the code. -/
theorem disconnect_without_callback_leaves_flag_false :
    (runEntry disconnectedEntry).keep = false
    ∧ (runEntry disconnectedEntry).entry.sock.closed = false
    ∧ (runEntry disconnectedEntry).calls = [] :=
  ⟨rfl, rfl, rfl⟩

/-- C2 (counterexample): the claim says the worker terminates its poll
loop after reading a close frame, performing no further iterations.  On a
trace whose first read yields a close frame and whose second read yields
the text frame "hi", the worker emits the `Message("hi")` event after the
`Disconnected("unknown")` event: the `Ok(Message::Close(..))` arm has no
`break`, so the loop keeps iterating. -/
theorem close_frame_loop_continues :
    workerRun ConnectResult.ok []
      [⟨[], true, ReadResult.frame (Frame.close none)⟩,
       ⟨[], true, ReadResult.frame (Frame.text [104, 105])⟩]
    = ([⟨LuaMessageType.connect, none⟩,
        ⟨LuaMessageType.disconnect, some "unknown"⟩,
        ⟨LuaMessageType.message, some "hi"⟩], []) := by
  rfl

/-- C2 (amended): for every close frame read by the worker, the read
phase emits exactly one `Disconnected` event carrying the frame's reason
(or "unknown" when the frame carries none), and the iteration does not
break the poll loop — the loop continues to further iterations and only
terminates later, on a non-WouldBlock read error or a dead command
producer. -/
theorem close_frame_emits_disconnect_and_continues :
    ∀ (q : List RustChannel) (f : Option String),
      readPhase (ReadResult.frame (Frame.close f)) =
        { events := [⟨LuaMessageType.disconnect, some (f.getD "unknown")⟩],
          acts := [], brk := false }
      ∧ (workerIter q true (ReadResult.frame (Frame.close f))).brk = false := by
  intro q f
  constructor
  · cases f <;> rfl
  · rw [workerIter_brk, commandPhase_alive_no_brk]
    cases f <;> rfl

/-- C3: after `close_now()` the command sender is a fresh channel whose
receiver was immediately dropped, so every subsequent `send` returns the
`ChannelClosed`-style error `"send failed: sending on a closed channel"`
and leaves the handle unchanged — no send in any subsequent sequence ever
silently succeeds. -/
theorem send_after_close_now_always_errors :
    ∀ (s : Socket) (reg : List Nat) (cb : Bool) (ts : List String),
      (sendMany (close_now s reg cb).handle ts).2
        = ts.map (fun _ => Except.error sendFailMsg)
      ∧ (sendMany (close_now s reg cb).handle ts).1 = (close_now s reg cb).handle := by
  intro s reg cb ts
  have hdead : (close_now s reg cb).handle.txConsumerAlive = false := rfl
  rw [sendMany_dead _ hdead ts]
  exact ⟨rfl, rfl⟩

/-- C6: when the initial `tungstenite::connect` fails, the worker emits
exactly the single `Error(message)` event and returns before the poll
loop, so whatever the environment would have offered afterwards, no
`Connected`, `Message` or `Disconnected` event is ever produced for that
generation and no socket action is performed. -/
theorem connect_failure_emits_single_error :
    ∀ (m : String) (q : List RustChannel) (iters : List IterInput),
      workerRun (ConnectResult.err m) q iters
        = ([⟨LuaMessageType.error, some m⟩], []) := by
  intro m q iters
  rfl

/-- C8: every text frame, valid UTF-8 or not, produces exactly one
`Message` event whose payload is the strict UTF-8 decoding when the bytes
are valid and the lossy replacement-character decoding otherwise, and the
read path neither breaks the loop nor drops the frame. -/
theorem text_frame_always_one_message_event :
    ∀ bs : List Nat,
      readPhase (ReadResult.frame (Frame.text bs)) =
        { events := [⟨LuaMessageType.message, some (decodeTextBytes bs)⟩],
          acts := [], brk := false }
      ∧ (from_utf8 bs = none → decodeTextBytes bs = from_utf8_lossy bs)
      ∧ (∀ s, from_utf8 bs = some s → decodeTextBytes bs = s) := by
  intro bs
  refine ⟨rfl, ?_, ?_⟩
  · intro h
    simp [decodeTextBytes, h]
  · intro s h
    simp [decodeTextBytes, h]

/-- C8 (witness): the invalid byte 0xFF is still delivered: strict
decoding fails on it, and the emitted payload is the lossy decoding, the
single replacement character. -/
theorem text_frame_always_one_message_event_witness :
    readPhase (ReadResult.frame (Frame.text [0xFF])) =
      { events := [⟨LuaMessageType.message, some (decodeTextBytes [0xFF])⟩],
        acts := [], brk := false }
    ∧ decodeTextBytes [0xFF] = from_utf8_lossy [0xFF] :=
  ⟨(text_frame_always_one_message_event [0xFF]).1,
   (text_frame_always_one_message_event [0xFF]).2.1 rfl⟩

/-- C4: `close_now` is total (its Lean type has no error component because
the Rust function has no channel-failure path — the old channel is
discarded, never used): it sets the lifecycle flag, replaces both channel
ends with freshly-created inert pairs (dead consumer and producer, empty
queues), removes exactly this handle from the registry while keeping every
other id, and invokes `on_disconnect` with the fixed reason
`"closed by user"` precisely when that callback is registered. -/
theorem close_now_spec :
    ∀ (s : Socket) (reg : List Nat) (cb : Bool),
      (close_now s reg cb).handle.closed = true
      ∧ (close_now s reg cb).handle.txConsumerAlive = false
      ∧ (close_now s reg cb).handle.txQueue = []
      ∧ (close_now s reg cb).handle.rxProducerAlive = false
      ∧ (close_now s reg cb).handle.rxQueue = []
      ∧ (close_now s reg cb).handle.id = s.id
      ∧ (close_now s reg cb).handle.url = s.url
      ∧ s.id ∉ (close_now s reg cb).registry
      ∧ (∀ j, j ≠ s.id → (j ∈ (close_now s reg cb).registry ↔ j ∈ reg))
      ∧ (close_now s reg cb).calls
          = (if cb then [CbCall.on_disconnect (some "closed by user")] else []) := by
  intro s reg cb
  refine ⟨rfl, rfl, rfl, rfl, rfl, rfl, rfl, ?_, ?_, rfl⟩
  · simp [close_now, List.mem_filter]
  · intro j hj
    simp [close_now, List.mem_filter, hj]

/-- C4 (witness): forcefully closing `sampleSock` while registered next to
handle 2: the flag is set, handle 2 stays registered, and the callback is
invoked with the fixed reason. -/
theorem close_now_spec_witness :
    (close_now sampleSock [1, 2] true).handle.closed = true
    ∧ ((2 : Nat) ∈ (close_now sampleSock [1, 2] true).registry
        ↔ (2 : Nat) ∈ ([1, 2] : List Nat))
    ∧ (close_now sampleSock [1, 2] true).calls
        = [CbCall.on_disconnect (some "closed by user")] := by
  obtain ⟨h1, _, _, _, _, _, _, _, hmem, hcalls⟩ := close_now_spec sampleSock [1, 2] true
  refine ⟨h1, hmem 2 (by decide), ?_⟩
  simpa using hcalls

/-- C5: `open` on a handle whose lifecycle flag is false returns `true`
while spawning nothing and leaving the handle and the registry exactly as
they were; and since re-insertion of a closed handle is guarded by a
membership check, a registry in which the handle appears at most once
still holds it at most once after `open`. -/
theorem open_noop_when_open_and_no_duplicate :
    ∀ (s : Socket) (reg : List Nat),
      (s.closed = false →
        «open» s reg = { handle := s, registry := reg, spawned := false, ret := true })
      ∧ (reg.count s.id ≤ 1 → ((«open» s reg).registry).count s.id ≤ 1) := by
  intro s reg
  constructor
  · intro h
    simp [«open», h]
  · intro hcount
    by_cases hc : s.closed
    · by_cases hm : s.id ∈ reg
      · simpa [«open», hc, hm] using hcount
      · have h0 : reg.count s.id = 0 := by
          simpa using List.count_eq_zero.mpr hm
        simp [«open», hc, hm, List.count_append, h0]
    · simpa [«open», hc] using hcount

/-- C5 (witness): on the open handle `sampleSock` registered as the sole
entry, `open` is a no-op returning `true` and the registry still holds the
handle exactly once. -/
theorem open_noop_when_open_and_no_duplicate_witness :
    «open» sampleSock [1]
      = { handle := sampleSock, registry := [1], spawned := false, ret := true }
    ∧ ((«open» sampleSock [1]).registry).count sampleSock.id ≤ 1 :=
  ⟨(open_noop_when_open_and_no_duplicate sampleSock [1]).1 rfl,
   (open_noop_when_open_and_no_duplicate sampleSock [1]).2 (by decide)⟩

/-- C7: one dispatch tick performs exactly one `try_recv` per registry
entry, so the entry's event queue shrinks by at most one element (it is
either unchanged or loses exactly its head); an empty queue with a live
worker is a normal condition that keeps the entry registered and
untouched; and a tick over the whole registry processes each entry through
exactly one such `runEntry` step. -/
theorem dispatch_drains_at_most_one_event :
    ∀ (e : Entry) (es : List Entry),
      ((runEntry e).entry.sock.rxQueue = e.sock.rxQueue
        ∨ (runEntry e).entry.sock.rxQueue = e.sock.rxQueue.tail)
      ∧ (e.sock.rxLockable = true → e.sock.rxProducerAlive = true →
          e.sock.rxQueue = [] →
          (runEntry e).keep = true ∧ (runEntry e).entry = e)
      ∧ (run_callbacks (e :: es)).1 =
          (if (runEntry e).keep then [(runEntry e).entry] else []) ++ (run_callbacks es).1 := by
  intro e es
  refine ⟨?_, ?_, ?_⟩
  · by_cases hl : e.sock.rxLockable
    · rcases hq : e.sock.rxQueue with _ | ⟨m, rest⟩
      · left
        by_cases hp : e.sock.rxProducerAlive <;>
          simp [runEntry, tryRecvEvent, hl, hq, hp]
      · right
        rcases m with ⟨mt, d⟩
        cases mt <;>
          simp [runEntry, tryRecvEvent, hl, hq]
        by_cases hd : e.cbs.onDisconnectRegistered <;> simp [hd]
    · left
      simp [runEntry, hl]
  · intro hl hp hq
    simp [runEntry, tryRecvEvent, hl, hp, hq]
  · rcases hr : run_callbacks es with ⟨kept, calls, logs⟩
    simp [run_callbacks, hr]

/-- C7 (witness): the entry `sampleEntry` has an empty event queue, a live
worker and an acquirable lock; the tick keeps it registered and
untouched. -/
theorem dispatch_drains_at_most_one_event_witness :
    (runEntry sampleEntry).keep = true ∧ (runEntry sampleEntry).entry = sampleEntry :=
  (dispatch_drains_at_most_one_event sampleEntry []).2.1 rfl rfl rfl

/-- C9: `send` never consults the lifecycle flag: on any handle whose
command-queue consumer is still alive the message is enqueued and `Ok`
returned, even when `closed = true` (as after a graceful `close`). -/
theorem send_ignores_closed_flag :
    ∀ (s : Socket) (t : String),
      s.closed = true → s.txConsumerAlive = true →
      send s t
        = ({ s with txQueue := s.txQueue ++ [⟨RustMessageType.message, some t⟩] },
           Except.ok ()) := by
  intro s t _ ha
  simp [send, ha]

/-- C9 (witness): after a graceful `close` of `sampleSock` (flag set to
true, worker still alive), `send "hi"` still enqueues and returns `Ok`. -/
theorem send_ignores_closed_flag_witness :
    send (close sampleSock).1 "hi"
      = ({ (close sampleSock).1 with
            txQueue := (close sampleSock).1.txQueue
              ++ [⟨RustMessageType.message, some "hi"⟩] },
         Except.ok ()) :=
  send_ignores_closed_flag (close sampleSock).1 "hi" rfl rfl

/-- C10: `close` sets the lifecycle flag before attempting to enqueue the
`Close` command, so the flag is true afterwards even on the error path
(dead consumer, where the enqueue fails and the error is returned without
rolling the flag back), and a subsequent `open` therefore takes the
respawn path rather than the no-op path. -/
theorem close_sets_flag_before_enqueue :
    ∀ (s : Socket) (reg : List Nat),
      (close s).1.closed = true
      ∧ (s.txConsumerAlive = false → (close s).2 = Except.error closeFailMsg)
      ∧ («open» (close s).1 reg).spawned = true := by
  intro s reg
  have h1 : (close s).1.closed = true := by
    by_cases h : s.txConsumerAlive <;> simp [close, h]
  refine ⟨h1, ?_, ?_⟩
  · intro h
    simp [close, h]
  · simp [«open», h1]

/-- C10 (witness): on a handle whose worker already exited, `close`
returns the channel error yet leaves the flag at true, and `open` then
spawns a fresh generation. -/
theorem close_sets_flag_before_enqueue_witness :
    (close { sampleSock with txConsumerAlive := false }).1.closed = true
    ∧ (close { sampleSock with txConsumerAlive := false }).2 = Except.error closeFailMsg
    ∧ («open» (close { sampleSock with txConsumerAlive := false }).1 []).spawned = true := by
  obtain ⟨h1, h2, h3⟩ :=
    close_sets_flag_before_enqueue { sampleSock with txConsumerAlive := false } []
  exact ⟨h1, h2 rfl, h3⟩

/-- Sanity check of the UTF-8 model: valid ASCII decodes strictly. -/
theorem from_utf8_valid_example : from_utf8 [104, 105] = some "hi" := rfl

/-- Sanity check of the UTF-8 model: a lone 0xFF byte is invalid. -/
theorem from_utf8_invalid_example : from_utf8 [0xFF] = none := rfl

/-- Sanity check of the UTF-8 model: surrogate encodings are rejected, as
by Rust `std::str::from_utf8`. -/
theorem from_utf8_surrogate_example : from_utf8 [0xED, 0xA0, 0x80] = none := rfl

/-- Sanity check of the UTF-8 model: a truncated 4-byte sequence is
replaced by a single U+FFFD (maximal subpart), as by
`String::from_utf8_lossy`. -/
theorem from_utf8_lossy_example : from_utf8_lossy [0xF0, 0x90, 0x28] = "�(" := rfl

end Tungstenite
